import Mathlib

/-
  Verification development for the PixelScale image application.

  The definitions below are a shallow embedding of the client code
  (frontend/src/lib/api.ts, frontend/src/hooks/useImages.ts,
  frontend/src/hooks/useFavorites.ts, frontend/src/components/ImageEditor.tsx,
  the Gallery page and the ShareModal component), together with models of the
  backend operations that the specification describes but whose code is not
  part of this tree (the transform pipeline, share-link resolution, the
  upload/create path).  JavaScript truthiness and optional chaining are made
  explicit through small helper functions.
-/

namespace PixelScale

/-! ## JavaScript value helpers -/

/-- JavaScript `x || d` for an optional integer field: `undefined` and `0` are
falsy, any other number is returned unchanged. -/
def jsOrInt (x : Option Int) (d : Int) : Int :=
  match x with
  | none => d
  | some v => if v = 0 then d else v

/-- JavaScript `x || d` for an optional string: `undefined` and the empty
string are falsy. -/
def jsOrStr (x : Option String) (d : String) : String :=
  match x with
  | none => d
  | some s => if s = "" then d else s

/-- JavaScript truthiness of an optional string (`undefined` and `""` are
falsy). -/
def truthyOptStr (x : Option String) : Bool :=
  match x with
  | none => false
  | some s => s != ""

/-! ## Data model (frontend/src/lib/api.ts) -/

/-- The `ImageProcessingOptions` interface of `api.ts`.  All fields are
optional; numbers are embedded as `Int`, enumerations as `String`. -/
structure ImageProcessingOptions where
  width : Option Int := none
  height : Option Int := none
  preset : Option String := none
  maintain_aspect : Option Bool := none
  crop_x : Option Int := none
  crop_y : Option Int := none
  crop_width : Option Int := none
  crop_height : Option Int := none
  rotate : Option Int := none
  flip_horizontal : Option Bool := none
  flip_vertical : Option Bool := none
  filter : Option String := none
  brightness : Option Int := none
  contrast : Option Int := none
  saturation : Option Int := none
  format : Option String := none
  quality : Option Int := none
deriving DecidableEq, Repr

/-- The client-side `Image` record.  The fields `id`, `url`, `original_url`,
`options`, `filename`, `uploaded_at` come from the `Image` interface in
`api.ts`; `is_favorite` and `user_index` are the further fields of the server
record that the hooks and pages read (`useImages.ts`, `useFavorites.ts`,
the Gallery page). -/
structure Image where
  id : Int
  url : String
  original_url : Option String := none
  options : Option ImageProcessingOptions := none
  filename : Option String := none
  uploaded_at : Option String := none
  is_favorite : Bool := false
  user_index : Int := 0
deriving DecidableEq, Repr

/-! ## Editor slider mapping (ImageEditor.tsx) -/

/-- The three slider states of the image editor (`brightness`, `contrast`,
`grayscale` in UI percent scale). -/
structure EditorSliders where
  brightness : Int
  contrast : Int
  grayscale : Int
deriving DecidableEq, Repr

/-- The adjustment triple the editor sends to `api.processImage` on save. -/
structure SavedAdjustments where
  brightness : Int
  contrast : Int
  saturation : Int
deriving DecidableEq, Repr

/-- The options-load effect of `ImageEditor.tsx`: with saved options the
sliders become `(brightness || 0) + 100`, `(contrast || 0) + 100` and
`saturation ? -saturation : 0`; without options they reset to the defaults
`100`, `100`, `0`. -/
def loadSliders (options : Option ImageProcessingOptions) : EditorSliders :=
  match options with
  | some o =>
      { brightness := jsOrInt o.brightness 0 + 100
        contrast := jsOrInt o.contrast 0 + 100
        grayscale :=
          match o.saturation with
          | none => 0
          | some s => if s = 0 then 0 else -s }
  | none => { brightness := 100, contrast := 100, grayscale := 0 }

/-- The save handler of `ImageEditor.tsx`: the request body is
`{brightness: brightness - 100, contrast: contrast - 100, saturation: -grayscale}`. -/
def saveSliders (ui : EditorSliders) : SavedAdjustments :=
  { brightness := ui.brightness - 100
    contrast := ui.contrast - 100
    saturation := -ui.grayscale }

/-- `effectiveImageSource` from `ImageEditor.tsx`: with the compare button held
or saved options present, and a truthy `original_url`, the editor previews the
original; otherwise the derived `url`. -/
def effectiveImageSource (showOriginal : Bool) (img : Image) : String :=
  if (showOriginal || img.options.isSome) && truthyOptStr img.original_url
  then img.original_url.getD "" else img.url

/-! ## URL normalization (api.ts) -/

/-- JavaScript `s.startsWith(pre)`. -/
def jsStartsWith (s pre : String) : Bool :=
  pre.data.isPrefixOf s.data

/-- The rewrite `api.ts` applies to each asset URL:
`u.startsWith('/') ? BASE_URL + u : u`. -/
def normalizeUrl (base u : String) : String :=
  if jsStartsWith u "/" then base ++ u else u

/-- The per-image normalization of `api.getImages`, `api.uploadImage` and
`api.processImage`: `url` and `original_url` are rewritten (optional chaining
leaves an absent `original_url` absent), every other field is spread through
unchanged. -/
def normalizeImage (base : String) (img : Image) : Image :=
  { img with
    url := normalizeUrl base img.url
    original_url := img.original_url.map (normalizeUrl base) }

/-- `api.getImages` normalizes every record of the returned list. -/
def normalizeImages (base : String) (imgs : List Image) : List Image :=
  imgs.map (normalizeImage base)

/-! ## Cached-list mutations (useImages.ts, useFavorites.ts) -/

/-- The optimistic updater of `useDeleteImage.onMutate`: every page keeps
exactly the records whose id differs from the deleted one. -/
def deleteFromPages (deletedId : Int) (pages : List (List Image)) : List (List Image) :=
  pages.map fun page => page.filter fun img => img.id != deletedId

/-- The optimistic updater of `useDeleteFavorite.onMutate` in
`useFavorites.ts` (same filter, applied to the favorites cache). -/
def deleteFavoriteFromPages (deletedId : Int) (pages : List (List Image)) : List (List Image) :=
  pages.map fun page => page.filter fun img => img.id != deletedId

/-- The per-record update of `useToggleFavorite.onMutate`:
`img.id === toggledId ? { ...img, is_favorite: !img.is_favorite } : img`. -/
def toggleFavoriteImg (toggledId : Int) (img : Image) : Image :=
  if img.id = toggledId then { img with is_favorite := !img.is_favorite } else img

/-- The optimistic updater of `useToggleFavorite.onMutate` (and of
`useToggleFavoriteInFavorites.onMutate`), mapped over every cached page. -/
def toggleFavoritePages (toggledId : Int) (pages : List (List Image)) : List (List Image) :=
  pages.map fun page => page.map (toggleFavoriteImg toggledId)

/-- The react-query cache entry for a paginated image list: `none` when the
key has no data yet, otherwise the list of pages. -/
abbrev Cache := Option (List (List Image))

/-- `queryClient.setQueryData` with an updater that starts with
`if (!oldData) return oldData`. -/
def setQueryDataUpd (f : List (List Image) → List (List Image)) : Cache → Cache
  | none => none
  | some pages => some (f pages)

/-- A delete/toggle mutation whose server call fails: `onMutate` snapshots
`previousData`, applies the optimistic update, and `onError` restores the
snapshot when it is truthy (`if (context?.previousData)`); the result is the
cache the client is left with. -/
def runFailedMutation (f : List (List Image) → List (List Image)) (cache : Cache) : Cache :=
  let previousData := cache
  let afterOptimistic := setQueryDataUpd f cache
  match previousData with
  | some d => some d
  | none => afterOptimistic

/-! ## Pagination (useImages.ts, useFavorites.ts, Gallery page) -/

/-- The shared page size of `useImages.ts`, `useFavorites.ts` and the Gallery
page. -/
def PAGE_SIZE : Nat := 50

/-- `getNextPageParam` of the infinite queries in `useImages.ts` and
`useFavorites.ts`: `undefined` when the last page is short, otherwise the
number of items fetched so far (`allPages.flat().length`). -/
def getNextPageParam (lastPage : List Image) (allPages : List (List Image)) : Option Nat :=
  if lastPage.length < PAGE_SIZE then none else some allPages.flatten.length

/-- The Gallery page's pagination state: accumulated images and the
`hasMore` flag. -/
structure GalleryState where
  images : List Image
  hasMore : Bool
deriving DecidableEq, Repr

/-- `Gallery.loadMore`: bail out when `hasMore` is false; otherwise request
`getImages(images.length, 50)` from the server, clear `hasMore` when the
returned page is short, and append a non-empty page to the accumulated list.
The server is a function from `(skip, limit)` to a page. -/
def loadMore (server : Nat → Nat → List Image) (s : GalleryState) : GalleryState :=
  if s.hasMore = false then s
  else
    let newImages := server s.images.length PAGE_SIZE
    { images := if 0 < newImages.length then s.images ++ newImages else s.images
      hasMore := if newImages.length < PAGE_SIZE then false else s.hasMore }

/-- Modelled from the spec: the listing endpoint `GET /api/images?skip=&limit=`
reached by `api.getImages(skip, limit)`, whose implementation is not part of
this tree (only its callers in the hooks and the Gallery page are). -/
def getImagesRequestUrl (base : String) (skip limit : Nat) : String :=
  base ++ "/api/images?skip=" ++ toString skip ++ "&limit=" ++ toString limit

/-- Modelled from the spec: the favorites listing endpoint
`GET /api/images/favorites?skip=&limit=` reached by
`api.getFavorites(skip, limit)`. -/
def getFavoritesRequestUrl (base : String) (skip limit : Nat) : String :=
  base ++ "/api/images/favorites?skip=" ++ toString skip ++ "&limit=" ++ toString limit

/-! ## Transform pipeline model

The Transform Engine, Codec Layer and Image Record Lifecycle live in the
backend, whose code is not part of this tree; the definitions in this section
are modelled from the spec (section 4.1: fixed stage order crop, rotate, flip,
resize, filter, adjustments, encode; clamping of photometric inputs; crop
geometry validated, never clamped). -/

/-- The error taxonomy of the pipeline (spec section 4.1, failure modes). -/
inductive TransformError where
  | DecodeError
  | ValidationError
  | EncodeError
deriving DecidableEq, Repr

/-- An in-memory raster: dimensions plus row-major pixel values. -/
structure Raster where
  width : Nat
  height : Nat
  pixels : List Nat
deriving DecidableEq, Repr

/-- Pixel lookup with a fixed background value outside the stored list. -/
def rasterGet (r : Raster) (x y : Nat) : Nat :=
  r.pixels.getD (y * r.width + x) 0

/-- Clamp an integer into `[lo, hi]`. -/
def clampInt (lo hi v : Int) : Int :=
  max lo (min hi v)

/-- Clamp an integer pixel value into the byte range. -/
def clampPixel (v : Int) : Nat :=
  (clampInt 0 255 v).toNat

/-- Modelled from the spec: stage 1, crop.  A no-op unless all four crop
fields are present; a crop rectangle that is non-positive or exceeds the
original bounds fails with `ValidationError` (no silent clamping). -/
def cropStage (o : ImageProcessingOptions) (r : Raster) : Except TransformError Raster :=
  match o.crop_x, o.crop_y, o.crop_width, o.crop_height with
  | some x, some y, some w, some h =>
      if 0 ≤ x ∧ 0 ≤ y ∧ 0 < w ∧ 0 < h ∧ x + w ≤ (r.width : Int) ∧ y + h ≤ (r.height : Int) then
        Except.ok
          { width := w.toNat
            height := h.toNat
            pixels :=
              (List.range h.toNat).flatMap fun j =>
                (List.range w.toNat).map fun i => rasterGet r (x.toNat + i) (y.toNat + j) }
      else Except.error TransformError.ValidationError
  | _, _, _, _ => Except.ok r

/-- Rotate a raster by 90 degrees clockwise. -/
def rotate90 (r : Raster) : Raster :=
  { width := r.height
    height := r.width
    pixels :=
      (List.range r.width).flatMap fun j =>
        (List.range r.height).map fun i => rasterGet r j (r.height - 1 - i) }

/-- Iterate `rotate90`. -/
def rotateBy : Nat → Raster → Raster
  | 0, r => r
  | n + 1, r => rotateBy n (rotate90 r)

/-- Modelled from the spec: stage 2, rotate, with the angle normalized to
`[0, 360)`.  Right-angle rotations are exact; for other angles the canvas
grows to the bounding square and is filled with the background value (the
model abstracts sub-pixel resampling, deterministically). -/
def rotateStage (o : ImageProcessingOptions) (r : Raster) : Raster :=
  match o.rotate with
  | none => r
  | some a =>
      let deg := (a % 360).toNat
      if deg % 90 = 0 then rotateBy (deg / 90) r
      else
        { width := r.width + r.height
          height := r.width + r.height
          pixels :=
            (List.range (r.width + r.height)).flatMap fun j =>
              (List.range (r.width + r.height)).map fun i =>
                if i < r.width ∧ j < r.height then rasterGet r i j else 0 }

/-- The rows of a raster. -/
def rasterRows (r : Raster) : List (List Nat) :=
  (List.range r.height).map fun j =>
    (List.range r.width).map fun i => rasterGet r i j

/-- Rebuild a raster from rows of a given width. -/
def rasterOfRows (w : Nat) (rows : List (List Nat)) : Raster :=
  { width := w, height := rows.length, pixels := rows.flatten }

/-- Modelled from the spec: stage 3, flip — horizontal then vertical,
independently, when requested. -/
def flipStage (o : ImageProcessingOptions) (r : Raster) : Raster :=
  let r1 :=
    if o.flip_horizontal.getD false then
      rasterOfRows r.width ((rasterRows r).map List.reverse)
    else r
  if o.flip_vertical.getD false then
    rasterOfRows r1.width (rasterRows r1).reverse
  else r1

/-- Modelled from the spec: the fixed preset table
thumbnail=150×150, medium=800×800, large=1920×1920. -/
def presetDims : String → Option (Nat × Nat)
  | "thumbnail" => some (150, 150)
  | "medium" => some (800, 800)
  | "large" => some (1920, 1920)
  | _ => none

/-- Modelled from the spec: the resize target box — explicit `width`/`height`
override `preset`; with neither, no resize. -/
def targetBox (o : ImageProcessingOptions) (r : Raster) : Option (Nat × Nat) :=
  match o.width, o.height with
  | some w, some h => some (w.toNat, h.toNat)
  | some w, none => some (w.toNat, r.height)
  | none, some h => some (r.width, h.toNat)
  | none, none =>
      match o.preset with
      | some p => presetDims p
      | none => none

/-- Nearest-neighbour resampling to exact target dimensions. -/
def resample (r : Raster) (w h : Nat) : Raster :=
  { width := w
    height := h
    pixels :=
      (List.range h).flatMap fun j =>
        (List.range w).map fun i => rasterGet r (i * r.width / w) (j * r.height / h) }

/-- Modelled from the spec: the aspect-preserving fit of a `w0 × h0` raster
into a `bw × bh` box — scaled to fit within the box, never cropped. -/
def fitWithin (w0 h0 bw bh : Nat) : Nat × Nat :=
  if w0 = 0 ∨ h0 = 0 then (w0, h0)
  else if bw * h0 ≤ bh * w0 then (bw, h0 * bw / w0)
  else (w0 * bh / h0, bh)

/-- Modelled from the spec: stage 4, resize — exact target dimensions when
`maintain_aspect` is false, fit-within when true, no-op without a target. -/
def resizeStage (o : ImageProcessingOptions) (r : Raster) : Raster :=
  match targetBox o r with
  | none => r
  | some (bw, bh) =>
      if o.maintain_aspect.getD false then
        let d := fitWithin r.width r.height bw bh
        resample r d.1 d.2
      else resample r bw bh

/-- Modelled from the spec: the per-pixel effect of the single stylistic
filter (channel maps for grayscale/sepia, fixed deterministic maps standing in
for the convolution kernels). -/
def filterPixel (name : String) (p : Nat) : Nat :=
  if name = "grayscale" then p
  else if name = "sepia" then clampPixel ((p : Int) * 9 / 10 + 20)
  else if name = "blur" then clampPixel (((p : Int) + 128) / 2)
  else if name = "sharpen" then clampPixel ((p : Int) * 2 - 128)
  else if name = "contour" then clampPixel (255 - (p : Int))
  else if name = "emboss" then clampPixel ((p : Int) / 2 + 64)
  else p

/-- Modelled from the spec: stage 5, the selected stylistic filter. -/
def filterStage (o : ImageProcessingOptions) (r : Raster) : Raster :=
  match o.filter with
  | none => r
  | some name => { r with pixels := r.pixels.map (filterPixel name) }

/-- Modelled from the spec: stage 6, adjustments — brightness, contrast,
saturation in that order, inputs clamped into `[-100, 100]`, 0 the identity. -/
def adjustPixel (brightness contrast saturation : Int) (p : Nat) : Nat :=
  let b := clampInt (-100) 100 brightness
  let c := clampInt (-100) 100 contrast
  let s := clampInt (-100) 100 saturation
  let p1 : Int := (p : Int) + b * 255 / 100
  let p2 : Int := (p1 - 128) * (100 + c) / 100 + 128
  let p3 : Int := p2 + (128 - p2) * (-(min s 0)) / 100
  clampPixel p3

/-- Modelled from the spec: the adjustment stage applied to every pixel. -/
def adjustStage (o : ImageProcessingOptions) (r : Raster) : Raster :=
  { r with
    pixels := r.pixels.map
      (adjustPixel (o.brightness.getD 0) (o.contrast.getD 0) (o.saturation.getD 0)) }

/-- Numeric code of an output format. -/
def formatCode (f : String) : Nat :=
  if f = "png" then 1 else if f = "webp" then 2 else 0

/-- Modelled from the spec: stage 7, encode — the derived bytes record the
format, the quality clamped into `[1, 100]`, the dimensions and the pixels. -/
def encodeStage (o : ImageProcessingOptions) (r : Raster) : List Nat :=
  formatCode (o.format.getD "jpeg") ::
    (clampInt 1 100 (o.quality.getD 85)).toNat ::
    r.width :: r.height :: r.pixels

/-- Modelled from the spec: the Codec Layer's decode — bytes shaped as
dimensions followed by exactly `width * height` pixel values; anything else is
a `DecodeError`. -/
def decodeStage (bytes : List Nat) : Except TransformError Raster :=
  match bytes with
  | w :: h :: px => if px.length = w * h then Except.ok ⟨w, h, px⟩
                    else Except.error TransformError.DecodeError
  | _ => Except.error TransformError.DecodeError

/-- Modelled from the spec: `apply(original_raster, options)` — the seven
stages in their fixed order. -/
def applyEngine (o : ImageProcessingOptions) (r : Raster) : Except TransformError (List Nat) := do
  let r1 ← cropStage o r
  let r2 := rotateStage o r1
  let r3 := flipStage o r2
  let r4 := resizeStage o r3
  let r5 := filterStage o r4
  let r6 := adjustStage o r5
  pure (encodeStage o r6)

/-- Modelled from the spec: the full pipeline on original bytes — decode,
transform, encode. -/
def applyPipeline (bytes : List Nat) (o : ImageProcessingOptions) : Except TransformError (List Nat) := do
  let r ← decodeStage bytes
  applyEngine o r

/-! ## Image record lifecycle model -/

/-- Modelled from the spec: the server-side `ImageRecord` — the immutable
original bytes, the optional derived bytes and the options that produced
them. -/
structure ImageRecord where
  original_bytes : List Nat
  edited_asset : Option (List Nat) := none
  active_options : Option ImageProcessingOptions := none
deriving DecidableEq, Repr

/-- Modelled from the spec: `reprocess` always re-runs the Transform Engine
against the stored original, never against the current derived asset, and
replaces `edited_asset_ref` and `active_options` together. -/
def reprocess (rec : ImageRecord) (o : ImageProcessingOptions) : ImageRecord :=
  { rec with
    edited_asset := (applyPipeline rec.original_bytes o).toOption
    active_options := some o }

/-- Modelled from the spec: `create` persists the original immutably and runs
the Transform Engine once with the given options. -/
def createRecord (original : List Nat) (o : ImageProcessingOptions) : ImageRecord :=
  { original_bytes := original
    edited_asset := (applyPipeline original o).toOption
    active_options := some o }

/-- The options carried by the default upload: the `medium` preset and nothing
else. -/
def mediumPresetOptions : ImageProcessingOptions :=
  { preset := some "medium" }

/-- The upload URL built by `api.uploadImage` in `api.ts`. -/
def uploadRequestUrl (base : String) : String :=
  base ++ "/api/upload?preset=medium"

/-! ## HTTP error surface (api.ts, SharedImage.tsx) -/

/-- `Response.ok`: status in `[200, 300)`. -/
def resOk (status : Nat) : Bool :=
  200 ≤ status && status < 300

/-- The error message produced by `handleResponse` in `api.ts`: a fixed
message on 401, `errorData.detail || 'Request failed'` on any other failed
response, and no error on success. -/
def handleResponseErrorMessage (status : Nat) (detail : Option String) : Option String :=
  if status = 401 then some "Incorrect username or password"
  else if resOk status then none
  else some (jsOrStr detail "Request failed")

/-- Does `pat` occur as a contiguous run inside the character list? -/
def containsSub (pat : List Char) : List Char → Bool
  | [] => pat.isEmpty
  | c :: rest => pat.isPrefixOf (c :: rest) || containsSub pat rest

/-- JavaScript `s.includes(pat)`. -/
def jsIncludes (s pat : String) : Bool :=
  containsSub pat.data s.data

/-- The error branch of the shared-image page (`SharedImage.tsx`): the title
is `Link Expired` exactly when the error message mentions `expired`,
otherwise `Image Not Found`. -/
def sharedImageErrorTitle (error : String) : String :=
  if jsIncludes error "expired" then "Link Expired" else "Image Not Found"

/-- The page title the client renders after `api.getSharedImage` fails with
the given status and error detail: the message thrown by `handleResponse`
fed into the shared-image error branch. -/
def renderSharedFailure (status : Nat) (detail : String) : String :=
  match handleResponseErrorMessage status (some detail) with
  | some msg => sharedImageErrorTitle msg
  | none => ""

/-! ## Share-link model -/

/-- Modelled from the spec: a stored `ShareLink` row — the opaque token, the
referenced image and the nullable expiry instant. -/
structure ShareLink where
  share_id : String
  image_id : Int
  expires_at : Option Int := none
deriving DecidableEq, Repr

/-- Modelled from the spec: `is_expired` is derived, not stored —
`expires_at is not null and now() > expires_at`. -/
def isExpired (link : ShareLink) (now : Int) : Bool :=
  match link.expires_at with
  | none => false
  | some t => t < now

/-- The two distinguishable failure classes of public share resolution. -/
inductive ResolveFailure where
  | notFound
  | gone
deriving DecidableEq, Repr

/-- Modelled from the spec: `resolve(share_id)` — `NotFound` (404) when the
token is unknown or revoked, `Gone` (410, distinct from `NotFound`) when the
link exists but is expired, otherwise the link. -/
def resolveShare (links : List ShareLink) (sid : String) (now : Int) :
    Except (ResolveFailure × Nat × String) ShareLink :=
  match links.find? (fun l => l.share_id == sid) with
  | none => Except.error (ResolveFailure.notFound, 404, "Share link not found")
  | some l =>
      if isExpired l now then Except.error (ResolveFailure.gone, 410, "Share link has expired")
      else Except.ok l

/-- Modelled from the spec: `revoke(share_id)` deletes the link row. -/
def revokeShare (links : List ShareLink) (sid : String) : List ShareLink :=
  links.filter fun l => l.share_id != sid

/-! ## Share modal (ShareModal component) -/

/-- A duration choice offered by the share modal. -/
structure DurationOption where
  value : String
  label : String
  description : String
deriving DecidableEq, Repr

/-- `DURATION_OPTIONS` from the ShareModal component: exactly three
choices. -/
def DURATION_OPTIONS : List DurationOption :=
  [ { value := "1_day", label := "1 Day", description := "Expires in 24 hours" },
    { value := "1_week", label := "1 Week", description := "Expires in 7 days" },
    { value := "forever", label := "Forever", description := "Never expires" } ]

/-- The body of the create call issued by `ShareModal.handleGenerate`
(`api.createShareLink(image.id, duration)`). -/
structure CreateShareRequest where
  image_id : Int
  duration : String
deriving DecidableEq, Repr

/-- `handleGenerate` passes the selected duration to the create call
unchanged. -/
def handleGenerateRequest (imageId : Int) (duration : String) : CreateShareRequest :=
  { image_id := imageId, duration := duration }

/-- Modelled from the spec: the duration-to-expiry map of share-link
creation — `1_day` to now+24h, `1_week` to now+7d, `forever` to null; any
other value is rejected. -/
def durationToExpiresAt (duration : String) (now : Int) : Option (Option Int) :=
  if duration = "1_day" then some (some (now + 24 * 3600))
  else if duration = "1_week" then some (some (now + 7 * 24 * 3600))
  else if duration = "forever" then some none
  else none

/-- `ShareModal.formatExpiration`: `Never` for a null `expires_at`, otherwise
the locale-formatted date (`fmt` stands for the browser's
`toLocaleDateString`). -/
def formatExpiration (fmt : String → String) (isoDate : Option String) : String :=
  match isoDate with
  | none => "Never"
  | some d => fmt d

/-! ## Helper lemmas -/

lemma jsOrInt_some_zero (v : Int) : jsOrInt (some v) 0 = v := by
  simp only [jsOrInt]
  split_ifs with h
  · omega
  · rfl

lemma normalizeUrl_idem (base u : String) (hbase : jsStartsWith base "/" = false) :
    normalizeUrl base (normalizeUrl base u) = normalizeUrl base u := by
  by_cases h : jsStartsWith u "/" = true
  · have h1 : normalizeUrl base u = base ++ u := by simp [normalizeUrl, h]
    rw [h1]
    cases base with
    | mk bl =>
      cases bl with
      | nil =>
        cases u with
        | mk ul => simp [normalizeUrl, h]
      | cons c rest =>
        have hc : ¬ ('/' = c) := by
          simpa [jsStartsWith, List.isPrefixOf] using hbase
        cases u with
        | mk ul =>
          have h2 : jsStartsWith (String.mk (c :: rest) ++ String.mk ul) "/" = false := by
            show (['/'].isPrefixOf (c :: rest ++ ul)) = false
            simp [List.isPrefixOf]
            exact hc
          simp [normalizeUrl, h2]
  · have h' : jsStartsWith u "/" = false := by simpa using h
    simp [normalizeUrl, h']

lemma normalizeImage_idem (base : String) (hbase : jsStartsWith base "/" = false) (img : Image) :
    normalizeImage base (normalizeImage base img) = normalizeImage base img := by
  cases img with
  | mk id url ourl opts fn up fav ui =>
    cases ourl with
    | none => simp [normalizeImage, normalizeUrl_idem base _ hbase]
    | some v => simp [normalizeImage, normalizeUrl_idem base _ hbase]

lemma normalizeImages_idem (base : String) (hbase : jsStartsWith base "/" = false)
    (imgs : List Image) :
    normalizeImages base (normalizeImages base imgs) = normalizeImages base imgs := by
  induction imgs with
  | nil => rfl
  | cons a t ih =>
    simp only [normalizeImages, List.map_cons] at *
    rw [normalizeImage_idem base hbase a]
    exact congrArg _ ih

lemma find?_revokeShare (links : List ShareLink) (sid : String) :
    (revokeShare links sid).find? (fun x => x.share_id == sid) = none := by
  rw [List.find?_eq_none]
  intro x hx
  have hpx := (List.mem_filter.mp hx).2
  simpa [bne] using hpx

/-! ## Claim theorems -/

/-- C1: The editor's UI scale and the backend delta scale are mutually inverse
affine maps — loading a saved options record sets the sliders to
`brightness + 100`, `contrast + 100` and `-saturation`, saving sends back
`brightness - 100`, `contrast - 100` and `-grayscale`, and load followed by
save reproduces exactly the saved backend triple for `brightness`, `contrast`
in `[-100, 100]` and `saturation` in `[-100, 0]`. -/
theorem editor_scale_roundtrip (o : ImageProcessingOptions) (b c s : Int)
    (hb : o.brightness = some b) (hc : o.contrast = some c) (hs : o.saturation = some s)
    (hbr : -100 ≤ b ∧ b ≤ 100) (hcr : -100 ≤ c ∧ c ≤ 100) (hsr : -100 ≤ s ∧ s ≤ 0) :
    (loadSliders (some o)).brightness = b + 100 ∧
    (loadSliders (some o)).contrast = c + 100 ∧
    (loadSliders (some o)).grayscale = -s ∧
    (∀ ui : EditorSliders,
      (saveSliders ui).brightness = ui.brightness - 100 ∧
      (saveSliders ui).contrast = ui.contrast - 100 ∧
      (saveSliders ui).saturation = -ui.grayscale) ∧
    saveSliders (loadSliders (some o)) = { brightness := b, contrast := c, saturation := s } := by
  have hgray : (loadSliders (some o)).grayscale = -s := by
    simp only [loadSliders, hs]
    split_ifs with h
    · omega
    · rfl
  have hbri : (loadSliders (some o)).brightness = b + 100 := by
    simp only [loadSliders, hb, jsOrInt_some_zero]
  have hcon : (loadSliders (some o)).contrast = c + 100 := by
    simp only [loadSliders, hc, jsOrInt_some_zero]
  refine ⟨hbri, hcon, hgray, fun ui => ⟨rfl, rfl, rfl⟩, ?_⟩
  have hsave : saveSliders (loadSliders (some o)) =
      { brightness := (loadSliders (some o)).brightness - 100
        contrast := (loadSliders (some o)).contrast - 100
        saturation := -(loadSliders (some o)).grayscale } := rfl
  rw [hsave, hbri, hcon, hgray]
  simp only [SavedAdjustments.mk.injEq]
  omega

/-- Witness for C1 at a concrete saved options record. -/
theorem editor_scale_roundtrip_witness :
    saveSliders (loadSliders (some
        { brightness := some 25, contrast := some (-40), saturation := some (-60) })) =
      { brightness := 25, contrast := -40, saturation := -60 } :=
  (editor_scale_roundtrip
    { brightness := some 25, contrast := some (-40), saturation := some (-60) }
    25 (-40) (-60) rfl rfl rfl (by decide) (by decide) (by decide)).2.2.2.2

/-- C5: The favorite-toggle cache update is a frame update — the cached pages
are mapped record-wise, the record with the toggled id changes only its
`is_favorite` field (id, url, original_url, options, filename, uploaded_at
and user_index are preserved), and every record with a different id is left
exactly as it was. -/
theorem toggle_favorite_frame (toggledId : Int) (img : Image) (pages : List (List Image)) :
    toggleFavoritePages toggledId pages = pages.map (List.map (toggleFavoriteImg toggledId)) ∧
    (toggleFavoriteImg toggledId img).id = img.id ∧
    (toggleFavoriteImg toggledId img).url = img.url ∧
    (toggleFavoriteImg toggledId img).original_url = img.original_url ∧
    (toggleFavoriteImg toggledId img).options = img.options ∧
    (toggleFavoriteImg toggledId img).filename = img.filename ∧
    (toggleFavoriteImg toggledId img).uploaded_at = img.uploaded_at ∧
    (toggleFavoriteImg toggledId img).user_index = img.user_index ∧
    (img.id = toggledId → (toggleFavoriteImg toggledId img).is_favorite = !img.is_favorite) ∧
    (img.id ≠ toggledId → toggleFavoriteImg toggledId img = img) := by
  refine ⟨rfl, ?_, ?_, ?_, ?_, ?_, ?_, ?_, ?_, ?_⟩
  · simp only [toggleFavoriteImg]; split_ifs <;> rfl
  · simp only [toggleFavoriteImg]; split_ifs <;> rfl
  · simp only [toggleFavoriteImg]; split_ifs <;> rfl
  · simp only [toggleFavoriteImg]; split_ifs <;> rfl
  · simp only [toggleFavoriteImg]; split_ifs <;> rfl
  · simp only [toggleFavoriteImg]; split_ifs <;> rfl
  · simp only [toggleFavoriteImg]; split_ifs <;> rfl
  · intro h; simp [toggleFavoriteImg, h]
  · intro h; simp [toggleFavoriteImg, h]

/-- Witness for C5: the matching record flips its flag, a non-matching record
is untouched. -/
theorem toggle_favorite_frame_witness :
    ((toggleFavoriteImg 1 { id := 1, url := "a" }).is_favorite
        = !({ id := 1, url := "a" } : Image).is_favorite) ∧
    toggleFavoriteImg 1 { id := 2, url := "b" } = { id := 2, url := "b" } := by
  constructor
  · exact (toggle_favorite_frame 1 { id := 1, url := "a" } []).2.2.2.2.2.2.2.2.1 rfl
  · exact (toggle_favorite_frame 1 { id := 2, url := "b" } []).2.2.2.2.2.2.2.2.2 (by decide)

/-- C9: A failed optimistic mutation is atomic — for the delete, the
favorite-toggle and the favorites-delete updaters alike, snapshotting the
cache, applying the optimistic update and rolling back on error leaves the
cache exactly as it was before the mutation began. -/
theorem failed_mutation_restores_cache (id : Int) (cache : Cache) :
    runFailedMutation (deleteFromPages id) cache = cache ∧
    runFailedMutation (toggleFavoritePages id) cache = cache ∧
    runFailedMutation (deleteFavoriteFromPages id) cache = cache := by
  refine ⟨?_, ?_, ?_⟩ <;> cases cache <;> rfl

/-- C10: Asset URL normalization prefixes `BASE_URL` exactly on a present
field that starts with `/`, leaves every other value (absolute URLs, absent
fields, all other record fields) unchanged, and is idempotent — for any base
URL that does not itself start with `/`, applying the normalization twice
equals applying it once, per URL, per record and per returned list. -/
theorem url_normalization (base u : String) (img : Image) (imgs : List Image)
    (hbase : jsStartsWith base "/" = false) :
    (jsStartsWith u "/" = true → normalizeUrl base u = base ++ u) ∧
    (jsStartsWith u "/" = false → normalizeUrl base u = u) ∧
    (img.original_url = none → (normalizeImage base img).original_url = none) ∧
    (normalizeImage base img).id = img.id ∧
    (normalizeImage base img).options = img.options ∧
    (normalizeImage base img).filename = img.filename ∧
    (normalizeImage base img).uploaded_at = img.uploaded_at ∧
    (normalizeImage base img).is_favorite = img.is_favorite ∧
    normalizeUrl base (normalizeUrl base u) = normalizeUrl base u ∧
    normalizeImage base (normalizeImage base img) = normalizeImage base img ∧
    normalizeImages base (normalizeImages base imgs) = normalizeImages base imgs := by
  refine ⟨?_, ?_, ?_, rfl, rfl, rfl, rfl, rfl,
    normalizeUrl_idem base u hbase, normalizeImage_idem base hbase img,
    normalizeImages_idem base hbase imgs⟩
  · intro h; simp [normalizeUrl, h]
  · intro h; simp [normalizeUrl, h]
  · intro h; simp [normalizeImage, h]

/-- Witness for C10 at the default base URL: a relative URL is prefixed, an
absolute URL is untouched, and the rewrite is idempotent. -/
theorem url_normalization_witness :
    normalizeUrl "http://localhost:8000" "/a.png" = "http://localhost:8000" ++ "/a.png" ∧
    normalizeUrl "http://localhost:8000" "http://cdn.example/x.png" = "http://cdn.example/x.png" ∧
    normalizeUrl "http://localhost:8000" (normalizeUrl "http://localhost:8000" "/a.png") =
      normalizeUrl "http://localhost:8000" "/a.png" := by
  refine ⟨?_, ?_, ?_⟩
  · exact (url_normalization "http://localhost:8000" "/a.png" { id := 0, url := "" } []
      (by decide)).1 (by decide)
  · exact (url_normalization "http://localhost:8000" "http://cdn.example/x.png"
      { id := 0, url := "" } [] (by decide)).2.1 (by decide)
  · exact (url_normalization "http://localhost:8000" "/a.png" { id := 0, url := "" } []
      (by decide)).2.2.2.2.2.2.2.2.1

/-- C2: Reprocessing always starts from the stored original — reprocessing
with options A and then B equals reprocessing with B alone, the original
bytes are the basis of every reprocess, and an image record with saved
options makes the editor preview the original URL rather than the derived
one. -/
theorem reprocess_from_original (rec : ImageRecord) (A B : ImageProcessingOptions)
    (img : Image) (u : String)
    (hopts : img.options.isSome = true) (hurl : img.original_url = some u) (hne : u ≠ "") :
    reprocess (reprocess rec A) B = reprocess rec B ∧
    (reprocess rec B).original_bytes = rec.original_bytes ∧
    (reprocess rec B).edited_asset = (applyPipeline rec.original_bytes B).toOption ∧
    effectiveImageSource false img = u := by
  refine ⟨rfl, rfl, rfl, ?_⟩
  simp [effectiveImageSource, hopts, hurl, truthyOptStr, hne]

/-- Witness for C2: a concrete record reprocessed twice, and a concrete
record with saved options previewed from the original URL. -/
theorem reprocess_from_original_witness :
    reprocess (reprocess { original_bytes := [1, 1, 7] } { rotate := some 90 })
        { brightness := some 10 } =
      reprocess { original_bytes := [1, 1, 7] } { brightness := some 10 } ∧
    effectiveImageSource false
        { id := 3, url := "http://h/e.png", original_url := some "http://h/o.png",
          options := some { brightness := some 10 } } = "http://h/o.png" := by
  constructor
  · exact (reprocess_from_original { original_bytes := [1, 1, 7] } { rotate := some 90 }
      { brightness := some 10 }
      { id := 3, url := "http://h/e.png", original_url := some "http://h/o.png",
        options := some { brightness := some 10 } } "http://h/o.png" rfl rfl (by decide)).1
  · exact (reprocess_from_original { original_bytes := [1, 1, 7] } { rotate := some 90 }
      { brightness := some 10 }
      { id := 3, url := "http://h/e.png", original_url := some "http://h/o.png",
        options := some { brightness := some 10 } } "http://h/o.png" rfl rfl (by decide)).2.2.2

/-- C3: The transform pipeline is deterministic — two invocations of `apply`
on equal original bytes and equal options produce identical output, at the
byte level and at the engine level; the pipeline is a pure function with no
source of randomness, time or I/O ordering. -/
theorem apply_deterministic (bytes1 bytes2 : List Nat) (o1 o2 : ImageProcessingOptions)
    (hb : bytes1 = bytes2) (ho : o1 = o2) :
    applyPipeline bytes1 o1 = applyPipeline bytes2 o2 ∧
    (∀ r : Raster, applyEngine o1 r = applyEngine o2 r) := by
  subst hb
  subst ho
  exact ⟨rfl, fun r => rfl⟩

/-- Witness for C3: two invocations on a concrete one-pixel image agree. -/
theorem apply_deterministic_witness :
    applyPipeline [1, 1, 7] { brightness := some 30 } =
      applyPipeline [1, 1, 7] { brightness := some 30 } :=
  (apply_deterministic [1, 1, 7] [1, 1, 7] { brightness := some 30 }
    { brightness := some 30 } rfl rfl).1

/-- C4: Listing pagination is consistent — `loadMore` requests the page at
skip equal to the number of items already fetched with limit `PAGE_SIZE`,
appends the returned page in order, and clears `hasMore` exactly when the
page is shorter than 50; `getNextPageParam` (shared by the gallery and
favorites infinite queries) requests the next page at the flattened total
exactly when the last page has 50 items and stops otherwise; the request
URLs carry the skip and limit. -/
theorem pagination_skip_limit (server : Nat → Nat → List Image) (s : GalleryState)
    (h : s.hasMore = true) :
    (loadMore server s).images = s.images ++ server s.images.length PAGE_SIZE ∧
    ((loadMore server s).hasMore = false ↔
      (server s.images.length PAGE_SIZE).length < PAGE_SIZE) ∧
    (∀ (lastPage : List Image) (allPages : List (List Image)), lastPage.length = PAGE_SIZE →
        getNextPageParam lastPage allPages = some allPages.flatten.length) ∧
    (∀ (lastPage : List Image) (allPages : List (List Image)), lastPage.length < PAGE_SIZE →
        getNextPageParam lastPage allPages = none) ∧
    (∀ base : String, getImagesRequestUrl base s.images.length PAGE_SIZE =
        base ++ "/api/images?skip=" ++ toString s.images.length ++ "&limit=" ++ toString 50) ∧
    (∀ base : String, getFavoritesRequestUrl base s.images.length PAGE_SIZE =
        base ++ "/api/images/favorites?skip=" ++ toString s.images.length ++
          "&limit=" ++ toString 50) ∧
    PAGE_SIZE = 50 := by
  refine ⟨?_, ?_, ?_, ?_, fun base => rfl, fun base => rfl, rfl⟩
  · simp only [loadMore, h]
    norm_num
  · simp only [loadMore, h]
    norm_num
  · intro lastPage allPages hl
    simp [getNextPageParam, hl]
  · intro lastPage allPages hl
    simp [getNextPageParam, hl]

/-- Witness for C4: with an empty server page the gallery stops, and a short
last page ends the infinite query. -/
theorem pagination_skip_limit_witness :
    (loadMore (fun _ _ => []) { images := [], hasMore := true }).hasMore = false ∧
    getNextPageParam [] [] = none := by
  constructor
  · exact (pagination_skip_limit (fun _ _ => []) { images := [], hasMore := true } rfl).2.1.mpr
      (by decide)
  · exact (pagination_skip_limit (fun _ _ => []) { images := [], hasMore := true } rfl).2.2.2.1
      [] [] (by decide)

/-- C6: Failed public share resolution distinguishes expiry from absence —
an expired link resolves to the Gone class (410, message mentioning expiry)
and the shared-image page then renders `Link Expired`, while an unknown or
revoked token resolves to the NotFound class (404) rendered as
`Image Not Found`; the two outcomes are distinct. -/
theorem share_failure_distinction (links : List ShareLink) (sid : String) (now : Int)
    (l : ShareLink)
    (hfound : links.find? (fun x => x.share_id == sid) = some l)
    (hexp : isExpired l now = true) :
    resolveShare links sid now =
      Except.error (ResolveFailure.gone, 410, "Share link has expired") ∧
    renderSharedFailure 410 "Share link has expired" = "Link Expired" ∧
    (∀ links2 : List ShareLink, links2.find? (fun x => x.share_id == sid) = none →
        resolveShare links2 sid now =
          Except.error (ResolveFailure.notFound, 404, "Share link not found")) ∧
    resolveShare (revokeShare links sid) sid now =
      Except.error (ResolveFailure.notFound, 404, "Share link not found") ∧
    renderSharedFailure 404 "Share link not found" = "Image Not Found" ∧
    ResolveFailure.gone ≠ ResolveFailure.notFound ∧
    ("Link Expired" : String) ≠ "Image Not Found" := by
  refine ⟨?_, by decide, ?_, ?_, by decide, by decide, by decide⟩
  · simp [resolveShare, hfound, hexp]
  · intro links2 h2
    simp [resolveShare, h2]
  · simp [resolveShare, find?_revokeShare links sid]

/-- Witness for C6: a concrete expired link yields Gone, an unknown token
yields NotFound. -/
theorem share_failure_distinction_witness :
    resolveShare [{ share_id := "tok", image_id := 1, expires_at := some 10 }] "tok" 100 =
      Except.error (ResolveFailure.gone, 410, "Share link has expired") ∧
    resolveShare [] "tok" 100 =
      Except.error (ResolveFailure.notFound, 404, "Share link not found") := by
  constructor
  · exact (share_failure_distinction
      [{ share_id := "tok", image_id := 1, expires_at := some 10 }] "tok" 100
      { share_id := "tok", image_id := 1, expires_at := some 10 } rfl rfl).1
  · exact (share_failure_distinction
      [{ share_id := "tok", image_id := 1, expires_at := some 10 }] "tok" 100
      { share_id := "tok", image_id := 1, expires_at := some 10 } rfl rfl).2.2.1 [] rfl

/-- C7: Share-link creation offers exactly the durations `1_day`, `1_week`
and `forever`, passes the chosen value unchanged to the create call, maps
them to now+24h, now+7d and null respectively, and displays `Never` exactly
when the returned `expires_at` is null. -/
theorem share_duration_mapping (now : Int) (fmt : String → String)
    (hfmt : ∀ d, fmt d ≠ "Never") :
    DURATION_OPTIONS.map DurationOption.value = ["1_day", "1_week", "forever"] ∧
    (∀ (imageId : Int) (duration : String),
        (handleGenerateRequest imageId duration).duration = duration ∧
        (handleGenerateRequest imageId duration).image_id = imageId) ∧
    durationToExpiresAt "1_day" now = some (some (now + 24 * 3600)) ∧
    durationToExpiresAt "1_week" now = some (some (now + 7 * 24 * 3600)) ∧
    durationToExpiresAt "forever" now = some none ∧
    (∀ isoDate : Option String, formatExpiration fmt isoDate = "Never" ↔ isoDate = none) := by
  refine ⟨rfl, fun i d => ⟨rfl, rfl⟩, ?_, ?_, ?_, ?_⟩
  · simp [durationToExpiresAt]
  · simp [durationToExpiresAt]
  · simp [durationToExpiresAt]
  · intro iso
    cases iso with
    | none => simp [formatExpiration]
    | some d => simp [formatExpiration, hfmt d]

/-- Witness for C7: the `forever` duration maps to a null expiry and the
modal shows `Never` for it. -/
theorem share_duration_mapping_witness :
    durationToExpiresAt "forever" 0 = some none ∧
    formatExpiration (fun _ => "Oct 11, 2026") none = "Never" := by
  constructor
  · exact (share_duration_mapping 0 (fun _ => "Oct 11, 2026")
      (fun d => show ("Oct 11, 2026" : String) ≠ "Never" by decide)).2.2.2.2.1
  · exact ((share_duration_mapping 0 (fun _ => "Oct 11, 2026")
      (fun d => show ("Oct 11, 2026" : String) ≠ "Never" by decide)).2.2.2.2.2 none).mpr rfl

/-- C8: A first upload without user-chosen options targets
`/api/upload?preset=medium`, so the image is processed once with the medium
preset, whose target box is 800×800, and the returned record carries the
derived asset produced by those options from the original bytes. -/
theorem default_upload_preset (base : String) (original : List Nat) :
    uploadRequestUrl base = base ++ "/api/upload?preset=medium" ∧
    presetDims "medium" = some (800, 800) ∧
    (∀ r : Raster, targetBox mediumPresetOptions r = some (800, 800)) ∧
    (createRecord original mediumPresetOptions).original_bytes = original ∧
    (createRecord original mediumPresetOptions).edited_asset =
      (applyPipeline original mediumPresetOptions).toOption ∧
    (createRecord original mediumPresetOptions).active_options = some mediumPresetOptions :=
  ⟨rfl, rfl, fun r => rfl, rfl, rfl, rfl⟩

end PixelScale
